import Mathlib

/-!
# esp-idf-simple-audio-player

A shallow embedding of `main/main.c` and `main/sdcard.h`: the SD card mount
routine `init_sdcard`, the I2S channel configuration `i2s_setup`, the streaming
routine `play_wav` and the sequencer `app_main`.

Every routine is a pure function from an environment (the return codes of the
vendor driver calls, the content of the file system, the tick period) to the
value it returns together with the trace of the external calls it makes, in
call order.  Vendor code (ESP-IDF drivers, libc `fopen`/`fseek`/`fread`) appears
as environment parameters and as a small model of a `FILE` stream.
-/

namespace WavPlayer

/-! ## Constants -/

/-- Error codes are C `int`s (`esp_err.h`). -/
abbrev esp_err_t := Int

/-- Value of `ESP_OK` in `esp_err.h`. -/
def ESP_OK : esp_err_t := 0
/-- Value of `ESP_FAIL` in `esp_err.h`. -/
def ESP_FAIL : esp_err_t := -1
/-- Value of `ESP_ERR_INVALID_ARG` in `esp_err.h`. -/
def ESP_ERR_INVALID_ARG : esp_err_t := 0x102

/-- From `main.c` line 32: `#define REBOOT_WAIT 5000`. -/
def REBOOT_WAIT : Nat := 5000
/-- From `main.c` line 33: `#define AUDIO_BUFFER 2048`. -/
def AUDIO_BUFFER : Nat := 2048
/-- From `sdcard.h` line 32. -/
def MOUNT_POINT : String := "/sdcard"
/-- From `sdcard.h` line 33. -/
def WAV_FILE : String := "/sdcard/2.wav"
/-- The C value `sizeof(int16_t)`. -/
def sizeof_int16_t : Nat := 2
/-- The header offset passed to `fseek` at `main.c` line 79. -/
def WAV_HEADER_BYTES : Nat := 44

/-- One byte of a file or of the transfer buffer. -/
abbrev Byte := Fin 256

/-! ## I2S channel configuration (`i2s_std.h` types, fields used by `i2s_setup`) -/

inductive i2s_data_bit_width_t where
  | I2S_DATA_BIT_WIDTH_8BIT
  | I2S_DATA_BIT_WIDTH_16BIT
  | I2S_DATA_BIT_WIDTH_24BIT
  | I2S_DATA_BIT_WIDTH_32BIT
  deriving DecidableEq, Repr

/-- Number of bits of a data width. -/
def i2s_data_bit_width_t.bits : i2s_data_bit_width_t → Nat
  | .I2S_DATA_BIT_WIDTH_8BIT => 8
  | .I2S_DATA_BIT_WIDTH_16BIT => 16
  | .I2S_DATA_BIT_WIDTH_24BIT => 24
  | .I2S_DATA_BIT_WIDTH_32BIT => 32

inductive i2s_slot_mode_t where
  | I2S_SLOT_MODE_MONO
  | I2S_SLOT_MODE_STEREO
  deriving DecidableEq, Repr

inductive i2s_std_slot_mask_t where
  | I2S_STD_SLOT_LEFT
  | I2S_STD_SLOT_RIGHT
  | I2S_STD_SLOT_BOTH
  deriving DecidableEq, Repr

structure i2s_std_clk_config_t where
  sample_rate_hz : Nat
  mclk_multiple : Nat
  deriving DecidableEq, Repr

structure i2s_std_slot_config_t where
  data_bit_width : i2s_data_bit_width_t
  slot_mode : i2s_slot_mode_t
  slot_mask : i2s_std_slot_mask_t
  deriving DecidableEq, Repr

structure i2s_std_gpio_config_t where
  mclk : Int
  bclk : Int
  ws : Int
  dout : Int
  din : Int
  mclk_inv : Bool
  bclk_inv : Bool
  ws_inv : Bool
  deriving DecidableEq, Repr

structure i2s_std_config_t where
  clk_cfg : i2s_std_clk_config_t
  slot_cfg : i2s_std_slot_config_t
  gpio_cfg : i2s_std_gpio_config_t
  deriving DecidableEq, Repr

/-- Vendor macro `I2S_STD_CLK_DEFAULT_CONFIG(rate)`: the given sample rate with the
default master clock multiple 256. -/
def I2S_STD_CLK_DEFAULT_CONFIG (rate : Nat) : i2s_std_clk_config_t :=
  { sample_rate_hz := rate, mclk_multiple := 256 }

/-- Vendor macro `I2S_STD_PHILIPS_SLOT_DEFAULT_CONFIG(bits, mode)`: the given data
width and slot mode; the default slot mask is the left slot for mono and both slots
for stereo. -/
def I2S_STD_PHILIPS_SLOT_DEFAULT_CONFIG (bits : i2s_data_bit_width_t)
    (mode : i2s_slot_mode_t) : i2s_std_slot_config_t :=
  { data_bit_width := bits
    slot_mode := mode
    slot_mask :=
      if mode = i2s_slot_mode_t.I2S_SLOT_MODE_MONO then i2s_std_slot_mask_t.I2S_STD_SLOT_LEFT
      else i2s_std_slot_mask_t.I2S_STD_SLOT_BOTH }

/-- The I2S pin assignment, declared in `configuration.h`; a parameter of the model. -/
structure I2SPins where
  I2S_SCLK_PIN : Int
  I2S_BLK_PIN : Int
  I2S_WS_PIN : Int
  I2S_DATA_OUT_PIN : Int
  I2S_DATA_IN_PIN : Int
  deriving DecidableEq, Repr

/-! ## Traces -/

inductive LogLevel where
  | E
  | I
  | V
  deriving DecidableEq, Repr

/-- The routines `app_main` calls. -/
inductive Routine where
  | print_system_info
  | init_sdcard
  | print_sdcard_info
  | i2s_setup
  | play_wav
  deriving DecidableEq, Repr

/-- External calls, in the order a run makes them.  `call r` marks the point where
`app_main` calls routine `r`; `abort` is the failed fatal check. -/
inductive Event where
  | log (lvl : LogLevel) (fmt : String)
  | call (r : Routine)
  | spi_bus_initialize (ret : esp_err_t)
  | esp_vfs_fat_sdspi_mount (mount_point : String) (ret : esp_err_t)
  | i2s_new_channel (ret : esp_err_t)
  | i2s_channel_init_std_mode (cfg : i2s_std_config_t) (ret : esp_err_t)
  | fopen (path : String) (ok : Bool)
  | fseek (offset : Nat)
  | calloc (nmemb size : Nat)
  | fread (size nmemb returned : Nat)
  | i2s_channel_enable
  | i2s_channel_write (data : List Byte) (size : Nat)
  | i2s_channel_disable
  | free
  | i2s_del_channel
  | vTaskDelay (ticks : Nat)
  | esp_restart
  | abort
  deriving DecidableEq, Repr

/-- What the program runs against: the return codes of the vendor calls, the files
that `fopen` can open, and the compile-time constants of the missing headers. -/
structure Env where
  spi_bus_initialize_ret : esp_err_t
  esp_vfs_fat_sdspi_mount_ret : esp_err_t
  i2s_new_channel_ret : esp_err_t
  i2s_channel_init_std_mode_ret : esp_err_t
  fs : String → Option (List Byte)
  pins : I2SPins
  portTICK_PERIOD_MS : Nat

/-! ## `sdcard.h` -/

/-- See `sdcard.h` lines 35-90.  Returns the error code and the trace. -/
def init_sdcard (env : Env) : esp_err_t × List Event :=
  let t0 := [Event.log .I "Initializing SD card"]
  let ret := env.spi_bus_initialize_ret
  let t1 := t0 ++ [ Event.spi_bus_initialize ret]
  if ret ≠ ESP_OK then
    (ESP_FAIL, t1 ++ [Event.log .E "Failed to initialize bus."])
  else
    let t2 := t1 ++ [Event.log .I "Mounting filesystem"]
    let ret := env.esp_vfs_fat_sdspi_mount_ret
    let t3 := t2 ++ [Event.esp_vfs_fat_sdspi_mount MOUNT_POINT ret]
    if ret ≠ ESP_OK then
      if ret = ESP_FAIL then
        (ESP_FAIL, t3 ++ [Event.log .E "Failed to mount filesystem. If you want the card to be formatted, set the CONFIG_EXAMPLE_FORMAT_IF_MOUNT_FAILED menuconfig option."])
      else
        (ESP_FAIL, t3 ++ [Event.log .E "Failed to initialize the card (%s). Make sure SD card lines have pull-up resistors in place."])
    else
      (ESP_OK, t3 ++ [Event.log .I "Filesystem mounted"])

/-- See `sdcard.h` lines 129-138: six log lines about the mounted card. -/
def print_sdcard_info : List Event :=
  [ Event.log .I "SD card info:"
  , Event.log .I "Name: %s"
  , Event.log .I "Speed: %s"
  , Event.log .I "Frequency: %ukHz"
  , Event.log .I "Log Bus Width: %u"
  , Event.log .I "Read Block Length: %u" ]

/-! ## libc streams -/

/-- An open read-only stream: the bytes of the file and the current position. -/
structure FILE where
  data : List Byte
  pos : Nat
  deriving DecidableEq, Repr

/-- Bytes left between the position of a stream and its end. -/
def FILE.remaining (fh : FILE) : Nat := fh.data.length - fh.pos

/-- The call `fopen(fp, "rb")`: `none` stands for `NULL`. -/
def fopen (fs : String → Option (List Byte)) (fp : String) : Option FILE :=
  (fs fp).map fun bytes => { data := bytes, pos := 0 }

/-- The call `fseek(fh, off, SEEK_SET)`: the position may lie past the end. -/
def fseek (fh : FILE) (off : Nat) : FILE :=
  { fh with pos := off }

/-- The call `fread(buf, size, nmemb, fh)`: up to `size * nmemb` bytes from the current
position are copied to the front of `buf` and the position advances by that many
bytes; the value returned is the number of complete items among them. -/
def fread (buf : List Byte) (size nmemb : Nat) (fh : FILE) : Nat × List Byte × FILE :=
  let got := (fh.data.drop fh.pos).take (size * nmemb)
  (got.length / size, got ++ buf.drop got.length, { fh with pos := fh.pos + got.length })

/-- The call `calloc(nmemb, size)`: a zeroed buffer of `nmemb * size` bytes. -/
def calloc (nmemb size : Nat) : List Byte :=
  List.replicate (nmemb * size) 0

/-! ## `main.c` -/

/-- The configuration `i2s_setup` builds (lines 48-65), slot mask override included. -/
def i2s_setup_std_cfg (pins : I2SPins) : i2s_std_config_t :=
  let std_cfg : i2s_std_config_t :=
    { clk_cfg := I2S_STD_CLK_DEFAULT_CONFIG 22050
      slot_cfg := I2S_STD_PHILIPS_SLOT_DEFAULT_CONFIG
        i2s_data_bit_width_t.I2S_DATA_BIT_WIDTH_16BIT i2s_slot_mode_t.I2S_SLOT_MODE_MONO
      gpio_cfg :=
        { mclk := pins.I2S_SCLK_PIN
          bclk := pins.I2S_BLK_PIN
          ws := pins.I2S_WS_PIN
          dout := pins.I2S_DATA_OUT_PIN
          din := pins.I2S_DATA_IN_PIN
          mclk_inv := false
          bclk_inv := false
          ws_inv := false } }
  { std_cfg with
    slot_cfg := { std_cfg.slot_cfg with slot_mask := i2s_std_slot_mask_t.I2S_STD_SLOT_RIGHT } }

/-- How a routine containing a fatal check ends. -/
inductive Outcome where
  | returned (ret : esp_err_t)
  | aborted
  deriving DecidableEq, Repr

/-- Modelled from the spec: the vendor macro `ESP_ERROR_CHECK` is not in the sources;
the spec says every failure is fatal and the failed check restarts the platform.  A
value other than `ESP_OK` ends the run with `abort`; otherwise the run goes on with
`rest`. -/
def ESP_ERROR_CHECK (x : esp_err_t) (rest : List Event) : List Event :=
  if x = ESP_OK then rest else [Event.abort]

/-- See `main.c` lines 41-67. -/
def i2s_setup (env : Env) : Outcome × List Event :=
  let r := env.i2s_new_channel_ret
  if r ≠ ESP_OK then
    (Outcome.aborted, [Event.i2s_new_channel r, Event.abort])
  else
    let ret := env.i2s_channel_init_std_mode_ret
    (Outcome.returned ret,
      [Event.i2s_new_channel r, Event.i2s_channel_init_std_mode (i2s_setup_std_cfg env.pins) ret])

/-- The `while (bytes_read > 0)` loop of `play_wav` (lines 90-96), entered with the
stream, the buffer and the count of the preceding `fread`. -/
def play_loop (fh : FILE) (buf : List Byte) (bytes_read : Nat) : List Event :=
  if bytes_read > 0 then
    let r := fread buf sizeof_int16_t AUDIO_BUFFER fh
    Event.i2s_channel_write (buf.take (bytes_read * sizeof_int16_t)) (bytes_read * sizeof_int16_t)
      :: Event.fread sizeof_int16_t AUDIO_BUFFER r.1
      :: Event.log .V "Bytes read: %d"
      :: play_loop r.2.2 r.2.1 r.1
  else
    []
termination_by (fh.data.length - fh.pos) + (if bytes_read > 0 then 1 else 0)
decreasing_by
  simp only [fread, sizeof_int16_t, AUDIO_BUFFER, List.length_take, List.length_drop]
  split <;> omega

/-- See `main.c` lines 69-102.  Returns the error code and the trace. -/
def play_wav (fs : String → Option (List Byte)) (fp : String) : esp_err_t × List Event :=
  match fopen fs fp with
  | none =>
    (ESP_ERR_INVALID_ARG, [Event.fopen fp false, Event.log .E "Failed to open file"])
  | some fh =>
    let fh := fseek fh WAV_HEADER_BYTES
    let buf := calloc AUDIO_BUFFER sizeof_int16_t
    let r := fread buf sizeof_int16_t AUDIO_BUFFER fh
    (ESP_OK,
      [ Event.fopen fp true
      , Event.fseek WAV_HEADER_BYTES
      , Event.calloc AUDIO_BUFFER sizeof_int16_t
      , Event.fread sizeof_int16_t AUDIO_BUFFER r.1
      , Event.i2s_channel_enable ]
      ++ play_loop r.2.2 r.2.1 r.1
      ++ [Event.i2s_channel_disable, Event.free])

/-- See `main.c` lines 104-130: the trace of a whole run. -/
def app_main (env : Env) : List Event :=
  let sd := init_sdcard env
  [Event.log .I "Starting up", Event.call .print_system_info, Event.call .init_sdcard]
    ++ sd.2
    ++ ESP_ERROR_CHECK sd.1
      ([Event.call .print_sdcard_info] ++ print_sdcard_info
        ++ [Event.log .I "Setting up i2s", Event.call .i2s_setup]
        ++ match i2s_setup env with
          | (Outcome.aborted, t) => t
          | (Outcome.returned e, t) =>
            t ++ ESP_ERROR_CHECK e
              (let p := play_wav env.fs WAV_FILE
               [Event.log .I "Playing wav file", Event.call .play_wav]
                ++ p.2
                ++ ESP_ERROR_CHECK p.1
                  [ Event.i2s_del_channel
                  , Event.log .I "Rebooting in %d ms..."
                  , Event.vTaskDelay (REBOOT_WAIT / env.portTICK_PERIOD_MS)
                  , Event.esp_restart ]))

/-! ## Reading traces -/

/-- Byte counts requested by the `i2s_channel_write` calls, in order. -/
def writeSizes : List Event → List Nat
  | [] => []
  | Event.i2s_channel_write _ size :: t => size :: writeSizes t
  | _ :: t => writeSizes t

/-- Concatenation of the byte ranges handed to `i2s_channel_write`, in order. -/
def writeData : List Event → List Byte
  | [] => []
  | Event.i2s_channel_write data _ :: t => data ++ writeData t
  | _ :: t => writeData t

/-- Values returned by the `fread` calls, in order. -/
def freadReturns : List Event → List Nat
  | [] => []
  | Event.fread _ _ n :: t => n :: freadReturns t
  | _ :: t => freadReturns t

/-- Calls on the output channel between creation and deletion. -/
def isChannelCall : Event → Bool
  | Event.i2s_channel_enable => true
  | Event.i2s_channel_write _ _ => true
  | Event.i2s_channel_disable => true
  | _ => false

def isWrite : Event → Bool
  | Event.i2s_channel_write _ _ => true
  | _ => false

/-- Sample counts of the chunks `n` samples are delivered in: full chunks of
`AUDIO_BUFFER` samples, then the remainder when there is one. -/
def chunkSizes (n : Nat) : List Nat :=
  List.replicate (n / AUDIO_BUFFER) AUDIO_BUFFER
    ++ (if n % AUDIO_BUFFER = 0 then [] else [n % AUDIO_BUFFER])

/-- Events of the steps that follow the mount in `app_main`. -/
def isAfterMount : Event → Bool
  | Event.call .print_sdcard_info => true
  | Event.call .i2s_setup => true
  | Event.call .play_wav => true
  | Event.i2s_new_channel _ => true
  | Event.i2s_channel_init_std_mode _ _ => true
  | Event.fopen _ _ => true
  | Event.fseek _ => true
  | Event.calloc _ _ => true
  | Event.fread _ _ _ => true
  | Event.i2s_channel_enable => true
  | Event.i2s_channel_write _ _ => true
  | Event.i2s_channel_disable => true
  | Event.free => true
  | Event.i2s_del_channel => true
  | Event.vTaskDelay _ => true
  | Event.esp_restart => true
  | _ => false

/-- Events that restart the device: the call of `esp_restart` and the failed fatal
check. -/
def restartsDevice : Event → Bool
  | Event.esp_restart => true
  | Event.abort => true
  | _ => false

/-- Whether every device restart in a trace comes right after `vTaskDelay ticks`;
`prev` is the event before the trace. -/
def restartsAfterDelay (ticks : Nat) (prev : Option Event) : List Event → Bool
  | [] => true
  | e :: t =>
    (if restartsDevice e then decide (prev = some (Event.vTaskDelay ticks)) else true)
      && restartsAfterDelay ticks (some e) t

/-- Whether every step of `app_main` succeeds in this environment. -/
def Env.allSucceed (env : Env) : Bool :=
  decide (env.spi_bus_initialize_ret = ESP_OK)
    && decide (env.esp_vfs_fat_sdspi_mount_ret = ESP_OK)
    && decide (env.i2s_new_channel_ret = ESP_OK)
    && decide (env.i2s_channel_init_std_mode_ret = ESP_OK)
    && (env.fs WAV_FILE).isSome

/-- An environment with the given return codes for `spi_bus_initialize`,
`esp_vfs_fat_sdspi_mount`, `i2s_new_channel` and `i2s_channel_init_std_mode`, the given
content of the file system, some pin numbers and a tick period of 10 ms. -/
def sampleEnv (spi mount newch init : esp_err_t) (fs : String → Option (List Byte)) : Env :=
  { spi_bus_initialize_ret := spi
    esp_vfs_fat_sdspi_mount_ret := mount
    i2s_new_channel_ret := newch
    i2s_channel_init_std_mode_ret := init
    fs := fs
    pins :=
      { I2S_SCLK_PIN := 0, I2S_BLK_PIN := 26, I2S_WS_PIN := 25, I2S_DATA_OUT_PIN := 22,
        I2S_DATA_IN_PIN := -1 }
    portTICK_PERIOD_MS := 10 }

/-- Calls that only a run past `fopen` makes. -/
def isStreamCall : Event → Bool
  | Event.fseek _ => true
  | Event.fread _ _ _ => true
  | Event.i2s_channel_enable => true
  | Event.i2s_channel_write _ _ => true
  | Event.i2s_channel_disable => true
  | _ => false

/-! ## Lemmas on `fread` and the loop -/

theorem fread_returned (buf : List Byte) (fh : FILE) :
    (fread buf sizeof_int16_t AUDIO_BUFFER fh).1 = min 4096 fh.remaining / 2 := by
  simp [fread, sizeof_int16_t, AUDIO_BUFFER, FILE.remaining]

theorem fread_stream (buf : List Byte) (fh : FILE) :
    (fread buf sizeof_int16_t AUDIO_BUFFER fh).2.2
      = { data := fh.data, pos := fh.pos + min 4096 fh.remaining } := by
  simp [fread, sizeof_int16_t, AUDIO_BUFFER, FILE.remaining]

theorem fread_buffer_take (buf : List Byte) (fh : FILE) (n : Nat)
    (hn : n ≤ min 4096 fh.remaining) :
    ((fread buf sizeof_int16_t AUDIO_BUFFER fh).2.1).take n = (fh.data.drop fh.pos).take n := by
  have hlen : ((fh.data.drop fh.pos).take (2 * 2048)).length = min 4096 fh.remaining := by
    simp [FILE.remaining]
  simp only [fread, sizeof_int16_t, AUDIO_BUFFER]
  rw [List.take_append_of_le_length (by omega), List.take_take]
  congr 1
  omega

theorem play_loop_zero (fh : FILE) (buf : List Byte) : play_loop fh buf 0 = [] := by
  rw [play_loop]; simp

theorem play_loop_pos (fh : FILE) (buf : List Byte) (n : Nat) (hn : 0 < n) :
    play_loop fh buf n =
      Event.i2s_channel_write (buf.take (n * sizeof_int16_t)) (n * sizeof_int16_t)
        :: Event.fread sizeof_int16_t AUDIO_BUFFER (fread buf sizeof_int16_t AUDIO_BUFFER fh).1
        :: Event.log .V "Bytes read: %d"
        :: play_loop (fread buf sizeof_int16_t AUDIO_BUFFER fh).2.2
            (fread buf sizeof_int16_t AUDIO_BUFFER fh).2.1
            (fread buf sizeof_int16_t AUDIO_BUFFER fh).1 := by
  rw [play_loop]; simp [hn]

theorem chunkSizes_zero : chunkSizes 0 = [] := by
  simp [chunkSizes, AUDIO_BUFFER]

theorem chunkSizes_small (n : Nat) (h0 : 0 < n) (h : n < 2048) : chunkSizes n = [n] := by
  have h1 : n / 2048 = 0 := Nat.div_eq_of_lt h
  have h2 : n % 2048 = n := Nat.mod_eq_of_lt h
  have h3 : n ≠ 0 := by omega
  simp [chunkSizes, AUDIO_BUFFER, h1, h2, h3]

theorem chunkSizes_full (n : Nat) (h : 2048 ≤ n) :
    chunkSizes n = 2048 :: chunkSizes (n - 2048) := by
  have h1 : n / 2048 = (n - 2048) / 2048 + 1 := by omega
  have h2 : n % 2048 = (n - 2048) % 2048 := by omega
  simp [chunkSizes, AUDIO_BUFFER, h1, h2, List.replicate_succ]

/-- The loop entered after an `fread` at a position with `r` bytes left: what it
writes, in which sizes, what the reads return, and that it neither enables nor
disables the channel. -/
theorem play_loop_after_fread (r : Nat) : ∀ (fh : FILE) (buf : List Byte), fh.remaining = r →
    writeData (play_loop (fread buf sizeof_int16_t AUDIO_BUFFER fh).2.2
        (fread buf sizeof_int16_t AUDIO_BUFFER fh).2.1
        (fread buf sizeof_int16_t AUDIO_BUFFER fh).1)
      = (fh.data.drop fh.pos).take (2 * (r / 2))
    ∧ writeSizes (play_loop (fread buf sizeof_int16_t AUDIO_BUFFER fh).2.2
        (fread buf sizeof_int16_t AUDIO_BUFFER fh).2.1
        (fread buf sizeof_int16_t AUDIO_BUFFER fh).1)
      = (chunkSizes (r / 2)).map (· * 2)
    ∧ (fread buf sizeof_int16_t AUDIO_BUFFER fh).1
        :: freadReturns (play_loop (fread buf sizeof_int16_t AUDIO_BUFFER fh).2.2
          (fread buf sizeof_int16_t AUDIO_BUFFER fh).2.1
          (fread buf sizeof_int16_t AUDIO_BUFFER fh).1)
      = chunkSizes (r / 2) ++ [0]
    ∧ (play_loop (fread buf sizeof_int16_t AUDIO_BUFFER fh).2.2
        (fread buf sizeof_int16_t AUDIO_BUFFER fh).2.1
        (fread buf sizeof_int16_t AUDIO_BUFFER fh).1).filter isChannelCall
      = (play_loop (fread buf sizeof_int16_t AUDIO_BUFFER fh).2.2
        (fread buf sizeof_int16_t AUDIO_BUFFER fh).2.1
        (fread buf sizeof_int16_t AUDIO_BUFFER fh).1).filter isWrite := by
  induction r using Nat.strong_induction_on with
  | _ r ih =>
    intro fh buf hr
    have hx1 := fread_returned buf fh
    have hx2 := fread_stream buf fh
    rw [hr] at hx1 hx2
    by_cases h2 : r < 2
    · have hz : (fread buf sizeof_int16_t AUDIO_BUFFER fh).1 = 0 := by rw [hx1]; omega
      have hd : r / 2 = 0 := by omega
      rw [hz, play_loop_zero, hd]
      simp [writeData, writeSizes, freadReturns, chunkSizes_zero]
    · have hpos : 0 < (fread buf sizeof_int16_t AUDIO_BUFFER fh).1 := by rw [hx1]; omega
      have hrem : ((fread buf sizeof_int16_t AUDIO_BUFFER fh).2.2).remaining = r - min 4096 r := by
        rw [hx2]; simp only [FILE.remaining] at hr ⊢; omega
      obtain ⟨ihD, ihS, ihR, ihC⟩ := ih (r - min 4096 r) (by omega)
        (fread buf sizeof_int16_t AUDIO_BUFFER fh).2.2
        (fread buf sizeof_int16_t AUDIO_BUFFER fh).2.1 hrem
      have htake := fread_buffer_take buf fh
        ((fread buf sizeof_int16_t AUDIO_BUFFER fh).1 * sizeof_int16_t)
        (by rw [hx1, hr]; simp only [sizeof_int16_t]; omega)
      rw [play_loop_pos _ _ _ hpos]
      simp only [writeData, writeSizes, freadReturns, List.filter_cons, isChannelCall, isWrite]
      rw [ihD, ihS, ihR, ihC, htake, hx1, hx2]
      simp only [sizeof_int16_t]
      refine ⟨?_, ?_, ?_, by simp⟩
      · by_cases h4 : 4096 ≤ r
        · have e1 : min 4096 r = 4096 := by omega
          have e2 : 2 * (r / 2) = 4096 + 2 * ((r - 4096) / 2) := by omega
          rw [e1, e2, List.take_add, List.drop_drop]
        · have e1 : min 4096 r = r := by omega
          have e3 : r / 2 * 2 = 2 * (r / 2) := by omega
          simp [e1, e3]
      · by_cases h4 : 4096 ≤ r
        · have e1 : min 4096 r = 4096 := by omega
          have e2 : (r - 4096) / 2 = r / 2 - 2048 := by omega
          rw [e1, chunkSizes_full (r / 2) (by omega), e2]
          simp
        · have e1 : min 4096 r = r := by omega
          rw [e1, chunkSizes_small (r / 2) (by omega) (by omega)]
          simp [chunkSizes_zero]
      · by_cases h4 : 4096 ≤ r
        · have e1 : min 4096 r = 4096 := by omega
          have e2 : (r - 4096) / 2 = r / 2 - 2048 := by omega
          rw [e1, chunkSizes_full (r / 2) (by omega), e2]
          simp
        · have e1 : min 4096 r = r := by omega
          rw [e1, chunkSizes_small (r / 2) (by omega) (by omega)]
          simp [chunkSizes_zero]

theorem writeData_append (a b : List Event) :
    writeData (a ++ b) = writeData a ++ writeData b := by
  induction a with
  | nil => rfl
  | cons e t ih => cases e <;> simp [writeData, ih]

theorem writeSizes_append (a b : List Event) :
    writeSizes (a ++ b) = writeSizes a ++ writeSizes b := by
  induction a with
  | nil => rfl
  | cons e t ih => cases e <;> simp [writeSizes, ih]

theorem freadReturns_append (a b : List Event) :
    freadReturns (a ++ b) = freadReturns a ++ freadReturns b := by
  induction a with
  | nil => rfl
  | cons e t ih => cases e <;> simp [freadReturns, ih]

theorem chunkSizes_sum (n : Nat) : (chunkSizes n).sum = n := by
  have h := Nat.div_add_mod n 2048
  by_cases h0 : n % 2048 = 0
  · simp [chunkSizes, AUDIO_BUFFER, h0]; omega
  · simp [chunkSizes, AUDIO_BUFFER, h0]; omega

theorem chunkSizes_length (n : Nat) : (chunkSizes n).length = (n + 2047) / 2048 := by
  by_cases h0 : n % 2048 = 0
  · simp [chunkSizes, AUDIO_BUFFER, h0]; omega
  · simp [chunkSizes, AUDIO_BUFFER, h0]; omega

theorem chunkSizes_mem (n s : Nat) (hs : s ∈ chunkSizes n) : 0 < s ∧ s ≤ 2048 := by
  simp only [chunkSizes, AUDIO_BUFFER, List.mem_append, List.mem_replicate] at hs
  rcases hs with ⟨_, rfl⟩ | hs
  · omega
  · split at hs
    · simp at hs
    · simp only [List.mem_singleton] at hs
      omega

theorem chunkSizes_dropLast_mem (n s : Nat) (hs : s ∈ (chunkSizes n).dropLast) : s = 2048 := by
  unfold chunkSizes at hs
  simp only [AUDIO_BUFFER] at hs
  split at hs
  · simp only [List.append_nil] at hs
    exact (List.mem_replicate.mp (List.mem_of_mem_dropLast hs)).2
  · rw [List.dropLast_concat] at hs
    exact (List.mem_replicate.mp hs).2

theorem chunkSizes_aligned (k : Nat) : chunkSizes (2048 * k) = List.replicate k 2048 := by
  simp [chunkSizes, AUDIO_BUFFER]

theorem sum_map_double (l : List Nat) : (l.map (· * 2)).sum = 2 * l.sum := by
  induction l with
  | nil => rfl
  | cons a t ih => simp [ih]; omega

/-- The trace of `play_wav` on a file that opens. -/
theorem play_wav_open (fs : String → Option (List Byte)) (fp : String) (file : List Byte)
    (hopen : fs fp = some file) :
    play_wav fs fp =
      (ESP_OK,
        Event.fopen fp true
        :: Event.fseek WAV_HEADER_BYTES
        :: Event.calloc AUDIO_BUFFER sizeof_int16_t
        :: Event.fread sizeof_int16_t AUDIO_BUFFER
            (fread (calloc AUDIO_BUFFER sizeof_int16_t) sizeof_int16_t AUDIO_BUFFER
              { data := file, pos := WAV_HEADER_BYTES }).1
        :: Event.i2s_channel_enable
        :: (play_loop
            (fread (calloc AUDIO_BUFFER sizeof_int16_t) sizeof_int16_t AUDIO_BUFFER
              { data := file, pos := WAV_HEADER_BYTES }).2.2
            (fread (calloc AUDIO_BUFFER sizeof_int16_t) sizeof_int16_t AUDIO_BUFFER
              { data := file, pos := WAV_HEADER_BYTES }).2.1
            (fread (calloc AUDIO_BUFFER sizeof_int16_t) sizeof_int16_t AUDIO_BUFFER
              { data := file, pos := WAV_HEADER_BYTES }).1
          ++ [Event.i2s_channel_disable, Event.free])) := by
  simp [play_wav, fopen, hopen, fseek]

theorem play_wav_writeData (fs : String → Option (List Byte)) (fp : String) (file : List Byte)
    (hopen : fs fp = some file) :
    writeData (play_wav fs fp).2 = (file.drop 44).take (2 * ((file.length - 44) / 2)) := by
  have h := (play_loop_after_fread (file.length - 44) { data := file, pos := WAV_HEADER_BYTES }
    (calloc AUDIO_BUFFER sizeof_int16_t) rfl).1
  rw [play_wav_open fs fp file hopen]
  simp only [WAV_HEADER_BYTES] at h
  simp only [writeData, writeData_append, h, WAV_HEADER_BYTES, List.append_nil]

theorem play_wav_writeSizes (fs : String → Option (List Byte)) (fp : String) (file : List Byte)
    (hopen : fs fp = some file) :
    writeSizes (play_wav fs fp).2 = (chunkSizes ((file.length - 44) / 2)).map (· * 2) := by
  have h := (play_loop_after_fread (file.length - 44) { data := file, pos := WAV_HEADER_BYTES }
    (calloc AUDIO_BUFFER sizeof_int16_t) rfl).2.1
  rw [play_wav_open fs fp file hopen]
  simp only [writeSizes, writeSizes_append, h, List.append_nil]

theorem play_wav_freadReturns (fs : String → Option (List Byte)) (fp : String)
    (file : List Byte) (hopen : fs fp = some file) :
    freadReturns (play_wav fs fp).2 = chunkSizes ((file.length - 44) / 2) ++ [0] := by
  have h := (play_loop_after_fread (file.length - 44) { data := file, pos := WAV_HEADER_BYTES }
    (calloc AUDIO_BUFFER sizeof_int16_t) rfl).2.2.1
  rw [play_wav_open fs fp file hopen]
  simp only [freadReturns, freadReturns_append, List.append_nil]
  exact h

theorem play_wav_channelCalls (fs : String → Option (List Byte)) (fp : String)
    (file : List Byte) (hopen : fs fp = some file) :
    (play_wav fs fp).2.filter isChannelCall
      = [Event.i2s_channel_enable] ++ (play_wav fs fp).2.filter isWrite
          ++ [Event.i2s_channel_disable] := by
  have h := (play_loop_after_fread (file.length - 44) { data := file, pos := WAV_HEADER_BYTES }
    (calloc AUDIO_BUFFER sizeof_int16_t) rfl).2.2.2
  rw [play_wav_open fs fp file hopen]
  simp only [List.filter_append, List.filter_cons, List.filter_nil, isChannelCall, isWrite, h]
  simp

/-- With fewer than two bytes after the header the first `fread` returns zero and the
loop body never runs. -/
theorem play_wav_no_sample (fs : String → Option (List Byte)) (fp : String)
    (file : List Byte) (hopen : fs fp = some file) (hlen : file.length - 44 < 2) :
    play_wav fs fp =
      (ESP_OK,
        [ Event.fopen fp true
        , Event.fseek 44
        , Event.calloc 2048 2
        , Event.fread 2 2048 0
        , Event.i2s_channel_enable
        , Event.i2s_channel_disable
        , Event.free ]) := by
  have hz : (fread (calloc AUDIO_BUFFER sizeof_int16_t) sizeof_int16_t AUDIO_BUFFER
      { data := file, pos := WAV_HEADER_BYTES }).1 = 0 := by
    rw [fread_returned]
    simp only [FILE.remaining, WAV_HEADER_BYTES]
    omega
  rw [play_wav_open fs fp file hopen, hz, play_loop_zero]
  rfl

/-! ## The claims on `play_wav` -/

/-- C1 (as stated, refuted): a 45-byte file opens and has `L ≥ 44`, yet the byte counts
requested from `i2s_channel_write` sum to 0, not to `L - 44 = 1`: the trailing odd byte
is not a complete 16-bit item, `fread` returns 0 and nothing is written. -/
theorem play_wav_bytes_written_counterexample :
    44 ≤ (List.replicate 45 (0 : Byte)).length
    ∧ (play_wav (fun _ => some (List.replicate 45 (0 : Byte))) WAV_FILE).2
        = [ Event.fopen WAV_FILE true, Event.fseek 44, Event.calloc 2048 2,
            Event.fread 2 2048 0, Event.i2s_channel_enable, Event.i2s_channel_disable,
            Event.free ]
    ∧ (writeSizes (play_wav (fun _ => some (List.replicate 45 (0 : Byte))) WAV_FILE).2).sum
        ≠ (List.replicate 45 (0 : Byte)).length - 44 := by
  have h := play_wav_no_sample (fun _ => some (List.replicate 45 (0 : Byte))) WAV_FILE
    (List.replicate 45 (0 : Byte)) rfl (by simp)
  rw [h]
  simp [writeSizes]

/-- C1 (amended): for a file of length `L ≥ 44` that opens, the byte counts requested
from `i2s_channel_write` sum to `L - 44` rounded down to a whole number of 16-bit
samples, which is `L - 44` itself when `L - 44` is even, and every write requests at
most 2048 samples (4096 bytes). -/
theorem play_wav_bytes_written (fs : String → Option (List Byte)) (fp : String)
    (file : List Byte) (hopen : fs fp = some file) (hlen : 44 ≤ file.length) :
    (writeSizes (play_wav fs fp).2).sum = 2 * ((file.length - 44) / 2)
    ∧ ((file.length - 44) % 2 = 0 → (writeSizes (play_wav fs fp).2).sum + 44 = file.length)
    ∧ ∀ s ∈ writeSizes (play_wav fs fp).2, s ≤ AUDIO_BUFFER * sizeof_int16_t := by
  have hsum : (writeSizes (play_wav fs fp).2).sum = 2 * ((file.length - 44) / 2) := by
    rw [play_wav_writeSizes fs fp file hopen, sum_map_double, chunkSizes_sum]
  refine ⟨hsum, fun heven => by omega, ?_⟩
  intro s hs
  rw [play_wav_writeSizes fs fp file hopen, List.mem_map] at hs
  obtain ⟨c, hc, rfl⟩ := hs
  have := chunkSizes_mem _ c hc
  simp only [AUDIO_BUFFER, sizeof_int16_t]
  omega

/-- Witness for C1: a 44-byte header followed by 6 bytes. -/
theorem play_wav_bytes_written_witness :
    (writeSizes (play_wav (fun _ => some (List.replicate 50 (0 : Byte))) WAV_FILE).2).sum = 6 := by
  have h := (play_wav_bytes_written (fun _ => some (List.replicate 50 (0 : Byte))) WAV_FILE
    (List.replicate 50 (0 : Byte)) rfl (by simp)).1
  simpa using h

/-- C2: a file of length `L ≤ 44` that opens (the empty file included) gives exactly
one `fread`, which returns 0, no `i2s_channel_write` at all, and `ESP_OK`. -/
theorem play_wav_header_only (fs : String → Option (List Byte)) (fp : String)
    (file : List Byte) (hopen : fs fp = some file) (hlen : file.length ≤ 44) :
    play_wav fs fp =
      (ESP_OK,
        [ Event.fopen fp true, Event.fseek 44, Event.calloc 2048 2, Event.fread 2 2048 0,
          Event.i2s_channel_enable, Event.i2s_channel_disable, Event.free ])
    ∧ (play_wav fs fp).1 = ESP_OK
    ∧ writeSizes (play_wav fs fp).2 = []
    ∧ (∀ e ∈ (play_wav fs fp).2, isWrite e = false)
    ∧ freadReturns (play_wav fs fp).2 = [0] := by
  have h := play_wav_no_sample fs fp file hopen (by omega)
  rw [h]
  simp [writeSizes, freadReturns, isWrite]

/-- Witness for C2: the empty file. -/
theorem play_wav_header_only_witness :
    writeSizes (play_wav (fun _ => some []) WAV_FILE).2 = []
    ∧ freadReturns (play_wav (fun _ => some []) WAV_FILE).2 = [0] :=
  ⟨(play_wav_header_only (fun _ => some []) WAV_FILE [] rfl (by simp)).2.2.1,
   (play_wav_header_only (fun _ => some []) WAV_FILE [] rfl (by simp)).2.2.2.2⟩

/-- C3: when `fopen` fails, `play_wav` returns `ESP_ERR_INVALID_ARG`, which is not
`ESP_OK`, and its trace is the failed `fopen` and one error log: no `fseek`, `fread`,
channel enable, write or disable.  When `fopen` succeeds it returns `ESP_OK`. -/
theorem play_wav_fopen (fs : String → Option (List Byte)) (fp : String) :
    (fs fp = none →
      play_wav fs fp
          = (ESP_ERR_INVALID_ARG, [Event.fopen fp false, Event.log .E "Failed to open file"])
        ∧ (play_wav fs fp).1 ≠ ESP_OK
        ∧ ∀ e ∈ (play_wav fs fp).2, isStreamCall e = false)
    ∧ (∀ file, fs fp = some file → (play_wav fs fp).1 = ESP_OK) := by
  constructor
  · intro hnone
    have h : play_wav fs fp
        = (ESP_ERR_INVALID_ARG, [Event.fopen fp false, Event.log .E "Failed to open file"]) := by
      simp [play_wav, fopen, hnone]
    rw [h]
    refine ⟨rfl, ?_, ?_⟩
    · show ESP_ERR_INVALID_ARG ≠ ESP_OK
      decide
    intro e he
    simp only [List.mem_cons, List.mem_singleton, List.not_mem_nil, or_false] at he
    rcases he with rfl | rfl <;> rfl
  · intro file hopen
    rw [play_wav_open fs fp file hopen]

/-- Witness for C3: a file system without any file, and one with a file. -/
theorem play_wav_fopen_witness :
    (play_wav (fun _ => none) WAV_FILE).1 = ESP_ERR_INVALID_ARG
    ∧ (play_wav (fun _ => some []) WAV_FILE).1 = ESP_OK :=
  ⟨by rw [((play_wav_fopen (fun _ => none) WAV_FILE).1 rfl).1],
   (play_wav_fopen (fun _ => some []) WAV_FILE).2 [] rfl⟩

/-- C4: whenever the file opens, the calls on the output channel made by `play_wav` are
one `i2s_channel_enable`, then only `i2s_channel_write` calls, then one
`i2s_channel_disable`; the whole trace holds exactly one enable and one disable. -/
theorem play_wav_channel_shape (fs : String → Option (List Byte)) (fp : String)
    (file : List Byte) (hopen : fs fp = some file) :
    (∃ ws, (∀ e ∈ ws, isWrite e = true)
      ∧ (play_wav fs fp).2.filter isChannelCall
          = [Event.i2s_channel_enable] ++ ws ++ [Event.i2s_channel_disable])
    ∧ (play_wav fs fp).2.count Event.i2s_channel_enable = 1
    ∧ (play_wav fs fp).2.count Event.i2s_channel_disable = 1 := by
  have hshape := play_wav_channelCalls fs fp file hopen
  have hws : ∀ e ∈ (play_wav fs fp).2.filter isWrite, isWrite e = true :=
    fun e he => (List.mem_filter.mp he).2
  have hen : Event.i2s_channel_enable ∉ (play_wav fs fp).2.filter isWrite :=
    fun hmem => by simpa [isWrite] using hws _ hmem
  have hdis : Event.i2s_channel_disable ∉ (play_wav fs fp).2.filter isWrite :=
    fun hmem => by simpa [isWrite] using hws _ hmem
  refine ⟨⟨_, hws, hshape⟩, ?_, ?_⟩
  · rw [← List.count_filter (show isChannelCall Event.i2s_channel_enable = true from rfl),
      hshape]
    simp [List.count_eq_zero_of_not_mem hen]
  · rw [← List.count_filter (show isChannelCall Event.i2s_channel_disable = true from rfl),
      hshape]
    simp [List.count_eq_zero_of_not_mem hdis]

/-- Witness for C4: a header followed by three samples. -/
theorem play_wav_channel_shape_witness :
    (play_wav (fun _ => some (List.replicate 50 (0 : Byte))) WAV_FILE).2.count
        Event.i2s_channel_enable = 1
    ∧ (play_wav (fun _ => some (List.replicate 50 (0 : Byte))) WAV_FILE).2.count
        Event.i2s_channel_disable = 1 :=
  (play_wav_channel_shape (fun _ => some (List.replicate 50 (0 : Byte))) WAV_FILE
    (List.replicate 50 (0 : Byte)) rfl).2

/-- C6: for a file that opens, with `n` complete samples after the 44-byte header, the
number of writes is `ceil (n / 2048)`, no write is empty, every write but possibly the
last requests 2048 samples (4096 bytes), and there is one `fread` more than there are
writes, the last one returning 0.  When the data is `4096 * k` bytes long there are
exactly `k` writes of 4096 bytes each and `k + 1` reads, returning 2048 `k` times and
then 0. -/
theorem play_wav_chunks (fs : String → Option (List Byte)) (fp : String)
    (file : List Byte) (hopen : fs fp = some file) :
    (writeSizes (play_wav fs fp).2).length = ((file.length - 44) / 2 + 2047) / 2048
    ∧ (∀ s ∈ writeSizes (play_wav fs fp).2, 0 < s)
    ∧ (∀ s ∈ (writeSizes (play_wav fs fp).2).dropLast, s = AUDIO_BUFFER * sizeof_int16_t)
    ∧ (freadReturns (play_wav fs fp).2).length = (writeSizes (play_wav fs fp).2).length + 1
    ∧ (freadReturns (play_wav fs fp).2).getLast? = some 0
    ∧ (∀ k, file.length = 44 + 4096 * k →
        writeSizes (play_wav fs fp).2 = List.replicate k (AUDIO_BUFFER * sizeof_int16_t)
        ∧ freadReturns (play_wav fs fp).2 = List.replicate k AUDIO_BUFFER ++ [0]) := by
  have hS := play_wav_writeSizes fs fp file hopen
  have hR := play_wav_freadReturns fs fp file hopen
  rw [hS, hR]
  refine ⟨?_, ?_, ?_, ?_, ?_, ?_⟩
  · rw [List.length_map, chunkSizes_length]
  · intro s hs
    obtain ⟨c, hc, rfl⟩ := List.mem_map.mp hs
    have := chunkSizes_mem _ c hc
    omega
  · intro s hs
    rw [← List.map_dropLast] at hs
    obtain ⟨c, hc, rfl⟩ := List.mem_map.mp hs
    rw [chunkSizes_dropLast_mem _ c hc]
    rfl
  · simp
  · simp
  · intro k hk
    have hn : (file.length - 44) / 2 = 2048 * k := by omega
    rw [hn, chunkSizes_aligned]
    simp [AUDIO_BUFFER, sizeof_int16_t]

/-- Witness for C6: a 44-byte header followed by 8192 bytes gives two writes of 4096
bytes and three reads. -/
theorem play_wav_chunks_witness :
    writeSizes (play_wav (fun _ => some (List.replicate 8236 (0 : Byte))) WAV_FILE).2
      = [4096, 4096]
    ∧ freadReturns (play_wav (fun _ => some (List.replicate 8236 (0 : Byte))) WAV_FILE).2
      = [2048, 2048, 0] := by
  have h := (play_wav_chunks (fun _ => some (List.replicate 8236 (0 : Byte))) WAV_FILE
    (List.replicate 8236 (0 : Byte)) rfl).2.2.2.2.2 2 (by rw [List.length_replicate])
  exact h

/-- C10 (as stated, refuted): for the 47-byte file whose data after the header is
`1, 2, 3`, the bytes handed to `i2s_channel_write` are `1, 2`, not the file's bytes from
offset 44: the last byte is not a complete 16-bit item and is never written. -/
theorem play_wav_data_counterexample :
    writeData (play_wav (fun _ => some (List.replicate 44 (0 : Byte) ++ [1, 2, 3])) WAV_FILE).2
        = [1, 2]
    ∧ (List.replicate 44 (0 : Byte) ++ [1, 2, 3]).drop 44 = [1, 2, 3]
    ∧ writeData (play_wav (fun _ => some (List.replicate 44 (0 : Byte) ++ [1, 2, 3])) WAV_FILE).2
        ≠ (List.replicate 44 (0 : Byte) ++ [1, 2, 3]).drop 44 := by
  have h := play_wav_writeData (fun _ => some (List.replicate 44 (0 : Byte) ++ [1, 2, 3]))
    WAV_FILE (List.replicate 44 (0 : Byte) ++ [1, 2, 3]) rfl
  have hd : (List.replicate 44 (0 : Byte) ++ [1, 2, 3]).drop 44 = [1, 2, 3] := by decide
  rw [h, hd]
  decide

/-- C10 (amended): for a file that opens, the byte ranges handed to `i2s_channel_write`,
concatenated in call order, are the file's bytes from offset 44 up to the last complete
16-bit sample, in file order; that is all of the file from offset 44 when the number of
bytes after the header is even.  Each write hands over exactly the bytes it requests,
so nothing stale from an earlier chunk is written. -/
theorem play_wav_data (fs : String → Option (List Byte)) (fp : String)
    (file : List Byte) (hopen : fs fp = some file) :
    writeData (play_wav fs fp).2 = (file.drop 44).take (2 * ((file.length - 44) / 2))
    ∧ ((file.length - 44) % 2 = 0 → writeData (play_wav fs fp).2 = file.drop 44)
    ∧ (writeData (play_wav fs fp).2).length = (writeSizes (play_wav fs fp).2).sum := by
  have hD := play_wav_writeData fs fp file hopen
  refine ⟨hD, ?_, ?_⟩
  · intro heven
    rw [hD]
    apply List.take_of_length_le
    rw [List.length_drop]
    omega
  · rw [hD, play_wav_writeSizes fs fp file hopen, sum_map_double, chunkSizes_sum,
      List.length_take, List.length_drop]
    omega

/-- Witness for C10: a full chunk followed by a short final read of two samples. -/
theorem play_wav_data_witness :
    writeData (play_wav (fun _ => some (List.replicate 4140 (0 : Byte) ++ [1, 2, 3, 4]))
        WAV_FILE).2
      = (List.replicate 4140 (0 : Byte) ++ [1, 2, 3, 4]).drop 44 :=
  (play_wav_data (fun _ => some (List.replicate 4140 (0 : Byte) ++ [1, 2, 3, 4])) WAV_FILE
    (List.replicate 4140 (0 : Byte) ++ [1, 2, 3, 4]) rfl).2.1
    (by rw [List.length_append, List.length_replicate]; rfl)

/-! ## The claims on `init_sdcard`, `i2s_setup` and `app_main` -/

theorem ESP_FAIL_ne_ESP_OK : ESP_FAIL ≠ ESP_OK := by decide

theorem init_sdcard_fst (env : Env) :
    (init_sdcard env).1 =
      if env.spi_bus_initialize_ret = ESP_OK ∧ env.esp_vfs_fat_sdspi_mount_ret = ESP_OK
      then ESP_OK else ESP_FAIL := by
  unfold init_sdcard
  by_cases h1 : env.spi_bus_initialize_ret = ESP_OK <;>
    by_cases h2 : env.esp_vfs_fat_sdspi_mount_ret = ESP_OK <;>
    by_cases h3 : env.esp_vfs_fat_sdspi_mount_ret = ESP_FAIL <;>
    simp [h1, h2, h3, ESP_FAIL_ne_ESP_OK]

theorem init_sdcard_trace_before_mount (env : Env) :
    ∀ e ∈ (init_sdcard env).2, isAfterMount e = false ∧ restartsDevice e = false := by
  unfold init_sdcard
  by_cases h1 : env.spi_bus_initialize_ret = ESP_OK <;>
    by_cases h2 : env.esp_vfs_fat_sdspi_mount_ret = ESP_OK <;>
    by_cases h3 : env.esp_vfs_fat_sdspi_mount_ret = ESP_FAIL <;>
    simp [h1, h2, h3, ESP_FAIL_ne_ESP_OK, isAfterMount, restartsDevice]

/-- C7: `init_sdcard` returns `ESP_OK` exactly when both `spi_bus_initialize` and
`esp_vfs_fat_sdspi_mount` return `ESP_OK`; in every other case it returns `ESP_FAIL`,
whatever the underlying code; and when `spi_bus_initialize` fails the trace holds no
mount call. -/
theorem init_sdcard_result (env : Env) :
    ((init_sdcard env).1 = ESP_OK ↔
      env.spi_bus_initialize_ret = ESP_OK ∧ env.esp_vfs_fat_sdspi_mount_ret = ESP_OK)
    ∧ ((init_sdcard env).1 ≠ ESP_OK → (init_sdcard env).1 = ESP_FAIL)
    ∧ (env.spi_bus_initialize_ret ≠ ESP_OK →
        ∀ mp r, Event.esp_vfs_fat_sdspi_mount mp r ∉ (init_sdcard env).2) := by
  have hfst := init_sdcard_fst env
  refine ⟨?_, ?_, ?_⟩
  · rw [hfst]
    by_cases h : env.spi_bus_initialize_ret = ESP_OK ∧ env.esp_vfs_fat_sdspi_mount_ret = ESP_OK
    · simp [h]
    · simp only [h, if_false, iff_false]
      decide
  · rw [hfst]
    split
    · intro h; exact absurd rfl h
    · intro _; rfl
  · intro hspi mp r
    simp [init_sdcard, hspi]

/-- Witness for C7: the mount returns the timeout code `0x107`, so neither `ESP_OK` nor
`ESP_FAIL`, and `init_sdcard` returns `ESP_FAIL`. -/
theorem init_sdcard_result_witness :
    (init_sdcard (sampleEnv ESP_OK 0x107 ESP_OK ESP_OK (fun _ => none))).1 = ESP_FAIL :=
  (init_sdcard_result (sampleEnv ESP_OK 0x107 ESP_OK ESP_OK (fun _ => none))).2.1 (by decide)

/-- The trace of `app_main` when `init_sdcard` does not return `ESP_OK`. -/
theorem app_main_sdcard_failure (env : Env) (h : (init_sdcard env).1 ≠ ESP_OK) :
    app_main env =
      [Event.log .I "Starting up", Event.call .print_system_info, Event.call .init_sdcard]
        ++ (init_sdcard env).2 ++ [Event.abort] := by
  simp [app_main, ESP_ERROR_CHECK, h]

/-- C5: when `spi_bus_initialize` or `esp_vfs_fat_sdspi_mount` fails, the run ends at the
fatal check on `init_sdcard`: the trace is the start-up, the events of `init_sdcard` and
the abort, and holds no `print_sdcard_info`, `i2s_setup` or `play_wav` call and no event
of theirs (no `fopen`, channel enable or write). -/
theorem app_main_mount_failure (env : Env)
    (hfail : env.spi_bus_initialize_ret ≠ ESP_OK ∨ env.esp_vfs_fat_sdspi_mount_ret ≠ ESP_OK) :
    app_main env =
      [Event.log .I "Starting up", Event.call .print_system_info, Event.call .init_sdcard]
        ++ (init_sdcard env).2 ++ [Event.abort]
    ∧ ∀ e ∈ app_main env, isAfterMount e = false := by
  have hne : (init_sdcard env).1 ≠ ESP_OK := by
    rw [init_sdcard_fst]
    have : ¬ (env.spi_bus_initialize_ret = ESP_OK ∧ env.esp_vfs_fat_sdspi_mount_ret = ESP_OK) :=
      fun hh => hfail.elim (fun a => a hh.1) (fun a => a hh.2)
    simp only [this, if_false]
    decide
  have htrace := app_main_sdcard_failure env hne
  refine ⟨htrace, ?_⟩
  intro e he
  rw [htrace] at he
  simp only [List.mem_append, List.mem_cons, List.mem_singleton, List.not_mem_nil,
    or_false] at he
  rcases he with ((rfl | rfl | rfl) | he) | rfl
  · rfl
  · rfl
  · rfl
  · exact (init_sdcard_trace_before_mount env e he).1
  · rfl

/-- Witness for C5: the bus initialisation returns `ESP_FAIL` although the card holds a
playable file; the run is six events and the abort. -/
theorem app_main_mount_failure_witness :
    app_main (sampleEnv ESP_FAIL ESP_OK ESP_OK ESP_OK (fun _ => some (List.replicate 50 0)))
      = [ Event.log .I "Starting up", Event.call .print_system_info, Event.call .init_sdcard,
          Event.log .I "Initializing SD card", Event.spi_bus_initialize ESP_FAIL,
          Event.log .E "Failed to initialize bus.", Event.abort ] :=
  (app_main_mount_failure
    (sampleEnv ESP_FAIL ESP_OK ESP_OK ESP_OK (fun _ => some (List.replicate 50 0)))
    (Or.inl (by decide))).1

/-- The trace of `app_main` when every step succeeds. -/
theorem app_main_success (env : Env) (h : env.allSucceed = true) :
    app_main env =
      ([Event.log .I "Starting up", Event.call .print_system_info, Event.call .init_sdcard]
        ++ (init_sdcard env).2
        ++ [Event.call .print_sdcard_info] ++ print_sdcard_info
        ++ [ Event.log .I "Setting up i2s", Event.call .i2s_setup,
             Event.i2s_new_channel ESP_OK,
             Event.i2s_channel_init_std_mode (i2s_setup_std_cfg env.pins) ESP_OK,
             Event.log .I "Playing wav file", Event.call .play_wav ]
        ++ (play_wav env.fs WAV_FILE).2)
      ++ [ Event.i2s_del_channel, Event.log .I "Rebooting in %d ms...",
           Event.vTaskDelay (REBOOT_WAIT / env.portTICK_PERIOD_MS), Event.esp_restart ] := by
  simp only [Env.allSucceed, Bool.and_eq_true, decide_eq_true_eq, Option.isSome_iff_exists] at h
  obtain ⟨⟨⟨⟨h1, h2⟩, h3⟩, h4⟩, file, h5⟩ := h
  have hsd : (init_sdcard env).1 = ESP_OK := by rw [init_sdcard_fst]; simp [h1, h2]
  have hp : (play_wav env.fs WAV_FILE).1 = ESP_OK := by rw [play_wav_open _ _ file h5]
  simp [app_main, ESP_ERROR_CHECK, i2s_setup, hsd, hp, h3, h4]

/-- The trace of `app_main` when some step fails: it ends with the abort of a fatal
check and holds neither a delay nor a call of `esp_restart`. -/
theorem app_main_failure (env : Env) (h : env.allSucceed = false) :
    (∃ pre, app_main env = pre ++ [Event.abort])
    ∧ ∀ e ∈ app_main env, e ≠ Event.esp_restart ∧ ∀ n, e ≠ Event.vTaskDelay n := by
  have hsdt : ∀ e ∈ (init_sdcard env).2, e ≠ Event.esp_restart ∧ ∀ n, e ≠ Event.vTaskDelay n := by
    intro e he
    have := init_sdcard_trace_before_mount env e he
    refine ⟨?_, ?_⟩
    · rintro rfl; simp [restartsDevice] at this
    · rintro n rfl; simp [isAfterMount] at this
  by_cases hsd : (init_sdcard env).1 = ESP_OK
  · have h12 := hsd
    rw [init_sdcard_fst] at h12
    have h12 : env.spi_bus_initialize_ret = ESP_OK ∧ env.esp_vfs_fat_sdspi_mount_ret = ESP_OK := by
      by_contra hc
      simp only [hc, if_false] at h12
      exact ESP_FAIL_ne_ESP_OK h12
    by_cases h3 : env.i2s_new_channel_ret = ESP_OK
    · by_cases h4 : env.i2s_channel_init_std_mode_ret = ESP_OK
      · have h5 : env.fs WAV_FILE = none := by
          cases hfs : env.fs WAV_FILE with
          | none => rfl
          | some file => simp [Env.allSucceed, h12.1, h12.2, h3, h4, hfs] at h
        have hp : play_wav env.fs WAV_FILE = (ESP_ERR_INVALID_ARG,
            [Event.fopen WAV_FILE false, Event.log .E "Failed to open file"]) := by
          simp [play_wav, fopen, h5]
        have hne : ESP_ERR_INVALID_ARG ≠ ESP_OK := by decide
        have hE : app_main env =
            ([Event.log .I "Starting up", Event.call .print_system_info, Event.call .init_sdcard]
              ++ (init_sdcard env).2
              ++ [Event.call .print_sdcard_info] ++ print_sdcard_info
              ++ [ Event.log .I "Setting up i2s", Event.call .i2s_setup,
                   Event.i2s_new_channel ESP_OK,
                   Event.i2s_channel_init_std_mode (i2s_setup_std_cfg env.pins) ESP_OK,
                   Event.log .I "Playing wav file", Event.call .play_wav,
                   Event.fopen WAV_FILE false, Event.log .E "Failed to open file" ])
            ++ [Event.abort] := by
          simp [app_main, ESP_ERROR_CHECK, i2s_setup, hsd, hp, h3, h4, hne]
        refine ⟨⟨_, hE⟩, ?_⟩
        intro e he
        rw [hE] at he
        simp only [List.mem_append, List.mem_cons, List.mem_singleton, List.not_mem_nil,
          or_false, print_sdcard_info] at he
        rcases he with ((((he | he) | he) | he) | he) | he
        · rcases he with rfl | rfl | rfl <;> simp
        · exact hsdt e he
        · subst he; simp
        · rcases he with rfl | rfl | rfl | rfl | rfl | rfl <;> simp
        · rcases he with rfl | rfl | rfl | rfl | rfl | rfl | rfl | rfl <;> simp
        · subst he; simp
      · have hE : app_main env =
            ([Event.log .I "Starting up", Event.call .print_system_info, Event.call .init_sdcard]
              ++ (init_sdcard env).2
              ++ [Event.call .print_sdcard_info] ++ print_sdcard_info
              ++ [ Event.log .I "Setting up i2s", Event.call .i2s_setup,
                   Event.i2s_new_channel ESP_OK,
                   Event.i2s_channel_init_std_mode (i2s_setup_std_cfg env.pins)
                     env.i2s_channel_init_std_mode_ret ])
            ++ [Event.abort] := by
          simp [app_main, ESP_ERROR_CHECK, i2s_setup, hsd, h3, h4]
        refine ⟨⟨_, hE⟩, ?_⟩
        intro e he
        rw [hE] at he
        simp only [List.mem_append, List.mem_cons, List.mem_singleton, List.not_mem_nil,
          or_false, print_sdcard_info] at he
        rcases he with ((((he | he) | he) | he) | he) | he
        · rcases he with rfl | rfl | rfl <;> simp
        · exact hsdt e he
        · subst he; simp
        · rcases he with rfl | rfl | rfl | rfl | rfl | rfl <;> simp
        · rcases he with rfl | rfl | rfl | rfl <;> simp
        · subst he; simp
    · have hE : app_main env =
          ([Event.log .I "Starting up", Event.call .print_system_info, Event.call .init_sdcard]
            ++ (init_sdcard env).2
            ++ [Event.call .print_sdcard_info] ++ print_sdcard_info
            ++ [ Event.log .I "Setting up i2s", Event.call .i2s_setup,
                 Event.i2s_new_channel env.i2s_new_channel_ret ])
          ++ [Event.abort] := by
        simp [app_main, ESP_ERROR_CHECK, i2s_setup, hsd, h3]
      refine ⟨⟨_, hE⟩, ?_⟩
      intro e he
      rw [hE] at he
      simp only [List.mem_append, List.mem_cons, List.mem_singleton, List.not_mem_nil,
        or_false, print_sdcard_info] at he
      rcases he with ((((he | he) | he) | he) | he) | he
      · rcases he with rfl | rfl | rfl <;> simp
      · exact hsdt e he
      · subst he; simp
      · rcases he with rfl | rfl | rfl | rfl | rfl | rfl <;> simp
      · rcases he with rfl | rfl | rfl <;> simp
      · subst he; simp
  · have hE := app_main_sdcard_failure env hsd
    refine ⟨⟨_, hE⟩, ?_⟩
    intro e he
    rw [hE] at he
    simp only [List.mem_append, List.mem_cons, List.mem_singleton, List.not_mem_nil,
      or_false] at he
    rcases he with (he | he) | he
    · rcases he with rfl | rfl | rfl <;> simp
    · exact hsdt e he
    · subst he; simp

/-- C8 (as stated, refuted): when the mount fails with the timeout code `0x107` the run
ends with the abort of the fatal check on `init_sdcard`, which restarts the device; the
event before it is an error log, not a delay, and the trace holds no delay at all. -/
theorem app_main_restart_counterexample :
    app_main (sampleEnv ESP_OK 0x107 ESP_OK ESP_OK (fun _ => some []))
      = [ Event.log .I "Starting up", Event.call .print_system_info, Event.call .init_sdcard,
          Event.log .I "Initializing SD card", Event.spi_bus_initialize ESP_OK,
          Event.log .I "Mounting filesystem", Event.esp_vfs_fat_sdspi_mount MOUNT_POINT 0x107,
          Event.log .E "Failed to initialize the card (%s). Make sure SD card lines have pull-up resistors in place.",
          Event.abort ]
    ∧ restartsAfterDelay (REBOOT_WAIT / 10) none
        (app_main (sampleEnv ESP_OK 0x107 ESP_OK ESP_OK (fun _ => some []))) = false := by
  have h : app_main (sampleEnv ESP_OK 0x107 ESP_OK ESP_OK (fun _ => some []))
      = [ Event.log .I "Starting up", Event.call .print_system_info, Event.call .init_sdcard,
          Event.log .I "Initializing SD card", Event.spi_bus_initialize ESP_OK,
          Event.log .I "Mounting filesystem", Event.esp_vfs_fat_sdspi_mount MOUNT_POINT 0x107,
          Event.log .E "Failed to initialize the card (%s). Make sure SD card lines have pull-up resistors in place.",
          Event.abort ] := by
    rw [app_main_sdcard_failure _ (by decide)]
    decide
  rw [h]
  exact ⟨rfl, by simp [restartsAfterDelay, restartsDevice]⟩

/-- C8 (amended): when every step succeeds, the run ends with: delete the output
channel, log, `vTaskDelay (REBOOT_WAIT / portTICK_PERIOD_MS)` with `REBOOT_WAIT = 5000`
(a delay of 5000 ms when the tick period divides 5000), `esp_restart`.  When a step
fails, the run ends with the abort of the failed fatal check and holds neither a delay
nor a call of `esp_restart`. -/
theorem app_main_restart (env : Env) :
    (env.allSucceed = true →
      (∃ pre, app_main env = pre ++
        [ Event.i2s_del_channel, Event.log .I "Rebooting in %d ms...",
          Event.vTaskDelay (REBOOT_WAIT / env.portTICK_PERIOD_MS), Event.esp_restart ])
      ∧ REBOOT_WAIT = 5000
      ∧ (env.portTICK_PERIOD_MS ∣ REBOOT_WAIT →
          REBOOT_WAIT / env.portTICK_PERIOD_MS * env.portTICK_PERIOD_MS = 5000))
    ∧ (env.allSucceed = false →
      (∃ pre, app_main env = pre ++ [Event.abort])
      ∧ ∀ e ∈ app_main env, e ≠ Event.esp_restart ∧ ∀ n, e ≠ Event.vTaskDelay n) :=
  ⟨fun h => ⟨⟨_, app_main_success env h⟩, rfl, fun hd => Nat.div_mul_cancel hd⟩,
   fun h => app_main_failure env h⟩

/-- Witness for C8: every step succeeds on a 50-byte file with a 10 ms tick; the run
ends with the deletion of the channel, a delay of 500 ticks and the restart. -/
theorem app_main_restart_witness :
    ∃ pre, app_main (sampleEnv ESP_OK ESP_OK ESP_OK ESP_OK (fun _ => some (List.replicate 50 0)))
      = pre ++ [ Event.i2s_del_channel, Event.log .I "Rebooting in %d ms...",
                 Event.vTaskDelay 500, Event.esp_restart ] :=
  ((app_main_restart
    (sampleEnv ESP_OK ESP_OK ESP_OK ESP_OK (fun _ => some (List.replicate 50 0)))).1 rfl).1

/-- C9 (the code evaluated): the only configuration `i2s_setup` passes to
`i2s_channel_init_std_mode` has sample rate 22050 Hz, not 44100, and slot mode mono,
not stereo, with the right slot selected; the data width is 16 bit, and `play_wav`
seeks to offset 44 before the first read. -/
theorem i2s_setup_config (env : Env) :
    (∀ cfg r, Event.i2s_channel_init_std_mode cfg r ∈ (i2s_setup env).2 →
        cfg = i2s_setup_std_cfg env.pins)
    ∧ (env.i2s_new_channel_ret = ESP_OK →
        Event.i2s_channel_init_std_mode (i2s_setup_std_cfg env.pins)
          env.i2s_channel_init_std_mode_ret ∈ (i2s_setup env).2)
    ∧ (i2s_setup_std_cfg env.pins).clk_cfg.sample_rate_hz = 22050
    ∧ (i2s_setup_std_cfg env.pins).clk_cfg.sample_rate_hz ≠ 44100
    ∧ (i2s_setup_std_cfg env.pins).slot_cfg.slot_mode = i2s_slot_mode_t.I2S_SLOT_MODE_MONO
    ∧ (i2s_setup_std_cfg env.pins).slot_cfg.slot_mode ≠ i2s_slot_mode_t.I2S_SLOT_MODE_STEREO
    ∧ (i2s_setup_std_cfg env.pins).slot_cfg.slot_mask = i2s_std_slot_mask_t.I2S_STD_SLOT_RIGHT
    ∧ (i2s_setup_std_cfg env.pins).slot_cfg.data_bit_width.bits = 16
    ∧ (∀ fs fp file, fs fp = some file → Event.fseek 44 ∈ (play_wav fs fp).2) := by
  refine ⟨?_, ?_, rfl, ?_, rfl, ?_, rfl, rfl, ?_⟩
  · intro cfg r hmem
    by_cases h : env.i2s_new_channel_ret = ESP_OK
    · simp [i2s_setup, h] at hmem
      exact hmem.1
    · simp [i2s_setup, h] at hmem
  · intro h
    simp [i2s_setup, h]
  · show (22050 : Nat) ≠ 44100
    decide
  · show i2s_slot_mode_t.I2S_SLOT_MODE_MONO ≠ i2s_slot_mode_t.I2S_SLOT_MODE_STEREO
    decide
  · intro fs fp file hopen
    rw [play_wav_open fs fp file hopen]
    simp [WAV_HEADER_BYTES]

end WavPlayer

